import Mathlib

/-!
Verification of TheParlament's orchestration layer.

Shallow embedding of the decision logic of the TheParlament repository:

* the retry/backoff coordinators
  (`run_parliament_session_ui` in `app.py` and `app/app.py`,
  `run_parliament_session` in `parlament_agent.py` and
  `app/parliament_agent_open_ai_sdk.py`),
* the guardrail wrapper (`MyGuardrailsAgent.validate_user_input` in
  `app/guardrails_config.py`),
* the file-writing tools (`original_script`, `write_hebrew_to_file`),
* the UI entry points (`process_topic` in both app variants).

External effects (the agent runtime `Runner.run`, network calls, sleeps)
are modelled by oracles: an `Outcome` per attempt for the generation
stage and a `ValidationBehavior` for the guardrail run.  File system
state is a function from file name to optional content, standing for the
`output_scripts` directory.  Python floats are modelled as rationals;
every delay arising in this code is exactly representable.
-/

/-- Result of one execution of the wrapped operation (`Runner.run` on the
scripter agent together with the rest of the `try:` body): it either
returns normally, raises `RateLimitError` with a message, or raises some
other exception with a message. -/
inductive Outcome where
  | ok (output : String)
  | rateLimit (msg : String)
  | exc (msg : String)
deriving DecidableEq, Repr

/-- Exceptions that may escape a CLI coordinator (the web coordinators
never let these escape). -/
inductive PyExc where
  | rateLimitError (msg : String)
  | otherExc (msg : String)
deriving DecidableEq, Repr

/-! The `retry in (\d+\.?\d*)s` regex.

`app.py`, `app/app.py` and `app/parliament_agent_open_ai_sdk.py` all run
`re.search(r'retry in (\d+\.?\d*)s', error_msg)`.  We model the search
directly: scan left to right for the literal `"retry in "`; at a match
position, the number group matches a nonempty digit run, then optionally
a dot followed by a (possibly empty) digit run, and must be followed by
the literal `s`.  (Greedy matching of `\d+\.?\d*` is equivalent to this
because shortening `\d+` only shifts digits into `\d*`.)  On a failed
number match the scan continues at the next character, as `re.search`
does. -/

/-- Numeric value of a decimal digit. -/
def digitVal (c : Char) : ℕ := c.toNat - '0'.toNat

/-- Value of a digit run read as a natural number. -/
def natOfDigits (ds : List Char) : ℕ :=
  ds.foldl (fun a c => 10 * a + digitVal c) 0

/-- Match the regex fragment `(\d+\.?\d*)s` at the head of `cs`.  The
group is reported as (integer part, fractional-digits value,
fractional-digits count); `float(group(1))` is `secsVal` of this. -/
def parseNumAt (cs : List Char) : Option (ℕ × ℕ × ℕ) :=
  let ds := cs.takeWhile Char.isDigit
  if ds.isEmpty then none
  else
    match cs.drop ds.length with
    | 's' :: _ => some (natOfDigits ds, 0, 0)
    | '.' :: rest =>
      let ds2 := rest.takeWhile Char.isDigit
      match rest.drop ds2.length with
      | 's' :: _ => some (natOfDigits ds, natOfDigits ds2, ds2.length)
      | _ => none
    | _ => none

/-- Left-to-right scan for `retry in (\d+\.?\d*)s`, as `re.search` does. -/
def findRetry : List Char → Option (ℕ × ℕ × ℕ)
  | [] => none
  | c :: cs =>
    if List.isPrefixOf "retry in ".toList (c :: cs) then
      match parseNumAt ((c :: cs).drop 9) with
      | some q => some q
      | none => findRetry cs
    else findRetry cs

/-- Conversion `float(retry_match.group(1))`: numeric value of the matched group. -/
def secsVal (p : ℕ × ℕ × ℕ) : ℚ :=
  (p.1 : ℚ) + (p.2.1 : ℚ) / (10 : ℚ) ^ p.2.2

/-- Model of `re.search(r'retry in (\d+\.?\d*)s', msg)`: the value of the first
captured group, if the pattern occurs in `msg`. -/
def findRetryDelay (msg : String) : Option ℚ :=
  (findRetry msg.toList).map secsVal

/-! Per-variant delay computation.

Each coordinator computes its wait interval inside the
`except RateLimitError` arm:

* both web UIs (`app.py` and `app/app.py`):
  `float(retry_match.group(1)) + 5` if the pattern matched, else
  `base_delay * (2 ** attempt)` with `base_delay = 30`;
* the SDK CLI (`app/parliament_agent_open_ai_sdk.py`): same, but with
  `base_delay = 35`;
* the legacy CLI (`parlament_agent.py`): no message parsing at all,
  always `base_delay * (2 ** attempt)` with `base_delay = 2`. -/

/-- Constant `max_retries` in both web coordinators. -/
def maxRetriesWeb : ℕ := 3

/-- Constant `max_retries` in the SDK CLI coordinator
(`app/parliament_agent_open_ai_sdk.run_parliament_session`). -/
def maxRetriesSdkCli : ℕ := 3

/-- Constant `max_retries` in the legacy CLI coordinator
(`parlament_agent.run_parliament_session`). -/
def maxRetriesLegacyCli : ℕ := 5

/-- Delay computed by both web coordinators (`base_delay = 30`). -/
def computeDelayWeb (attempt : ℕ) (msg : String) : ℚ :=
  match findRetryDelay msg with
  | some q => q + 5
  | none => 30 * 2 ^ attempt

/-- Delay computed by the SDK CLI coordinator (`base_delay = 35`). -/
def computeDelaySdkCli (attempt : ℕ) (msg : String) : ℚ :=
  match findRetryDelay msg with
  | some q => q + 5
  | none => 35 * 2 ^ attempt

/-- Delay computed by the legacy CLI coordinator
(`base_delay = 2`, the error message is not inspected). -/
def computeDelayLegacyCli (attempt : ℕ) : ℚ := 2 * 2 ^ attempt

/-! Python `f"{delay:.0f}"` formatting (round half to even). -/

/-- Floor of a rational (numerator floor-divided by denominator). -/
def ratFloor (q : ℚ) : ℤ := Int.fdiv q.num (q.den : ℤ)

/-- Round half to even, as Python `format(x, '.0f')` does. -/
def roundHalfEven (q : ℚ) : ℤ :=
  let f := ratFloor q
  let r := q - (f : ℚ)
  if r < 1 / 2 then f
  else if 1 / 2 < r then f + 1
  else if f % 2 = 0 then f else f + 1

/-- Render a delay with `:.0f`. -/
def formatF0 (q : ℚ) : String := toString (roundHalfEven q)

/-! File system model.

The `output_scripts` directory is a map from file name to optional
content.  `os.listdir` + per-`.txt` `os.remove` becomes `removeTxtFiles`;
`open(path, 'w')` + `write` becomes `writeFile`. -/

/-- Directory state: content of each file name, `none` if absent. -/
def Dir : Type := String → Option String

/-- The empty directory. -/
def emptyDir : Dir := fun _ => none

/-- Overwrite (or create) a file. -/
def writeFile (name content : String) (d : Dir) : Dir :=
  fun n => if n = name then some content else d n

/-- Python's `filename.endswith('.txt')`. -/
def endsWithTxt (n : String) : Bool := List.isSuffixOf ".txt".toList n.toList

/-- Delete every file whose name ends with `.txt`
(the `os.listdir` / `os.remove` loop in `original_script`). -/
def removeTxtFiles (d : Dir) : Dir :=
  fun n => if endsWithTxt n then none else d n

/-- Read a file's content, `none` when the file does not exist
(`FileNotFoundError` / failed `os.path.exists`). -/
def readFile (name : String) (d : Dir) : Option String := d name

/-- The `write_hebrew_to_file` tool (both agent variants): write `text`
to `hebrew_output.txt`. -/
def write_hebrew_to_file (text : String) (d : Dir) : Dir :=
  writeFile "hebrew_output.txt" text d

/-- The `original_script` tool (both agent variants): delete every
`.txt` file in the output directory, then write `text` to
`original_script.txt`. -/
def original_script (text : String) (d : Dir) : Dir :=
  writeFile "original_script.txt" text (removeTxtFiles d)

/-- The UI's read of the original script
(`except FileNotFoundError` branch in both app variants). -/
def readOriginalField (d : Dir) : String :=
  match readFile "original_script.txt" d with
  | some s => s
  | none => "Original script file not found."

/-- The UI's read of the Hebrew translation
(`except FileNotFoundError` in `app.py`,
`os.path.exists` check in `app/app.py` — same observable behaviour). -/
def readHebrewField (d : Dir) : String :=
  match readFile "hebrew_output.txt" d with
  | some s => s
  | none => "Hebrew translation file not found."


/-! Guardrail wrapper (`app/guardrails_config.py`).

`MyGuardrailsAgent.validate_user_input` awaits `Runner.run` on the
validation agent; that external call either returns a final output,
raises an input/output-guardrail tripwire exception, or raises some
other exception.  The three cases are the oracle below. -/

/-- Behaviour of the external `Runner.run(self.agent, user_input)` call
inside `validate_user_input`. -/
inductive ValidationBehavior where
  | runOk (finalOutput : String)
  | tripwire (guardrailName : String)
  | unexpected (excMsg : String)
deriving DecidableEq, Repr

/-- The `GuardrailsResponse` pydantic model of `app/guardrails_config.py`. -/
structure GuardrailsResponse where
  success : Bool
  sanitized_input : String
  warnings : List String
deriving DecidableEq, Repr

/-- Model of `MyGuardrailsAgent.validate_user_input`: success wraps the
run's final output as the sanitized input; a tripwire yields a failure
naming the guardrail; any other exception is caught and yields a failure
whose warning embeds the exception text.  The function is total: no
exception propagates to the caller. -/
def validate_user_input (b : ValidationBehavior) : GuardrailsResponse :=
  match b with
  | .runOk out =>
    { success := true, sanitized_input := out, warnings := [] }
  | .tripwire name =>
    { success := false, sanitized_input := ""
      warnings := ["Guardrail triggered: " ++ name] }
  | .unexpected m =>
    { success := false, sanitized_input := ""
      warnings := ["Validation error: " ++ m] }

/-! The guardrails web pipeline (`app/app.py`). -/

/-- External environment of one `run_parliament_session_ui` call in
`app/app.py`: the behaviour of the guardrail run, the outcome of each
generation attempt, the `output_scripts` directory at read time, and the
comic-panel file (`none` when `generated_comic_panel.png` is absent). -/
structure Env where
  validation : ValidationBehavior
  outcomes : ℕ → Outcome
  dir : Dir
  comic : Option String

/-- Result of `run_parliament_session_ui` in `app/app.py`.  `value` is
`Except.error msg` when the function raises
`GuardrailsValidationError(msg)` — the only exception it can raise: every
other exception inside the generation loop is caught and returned as a
string.  `validationCalls` and `genCalls` count invocations of
`validate_user_input` and of `Runner.run` on the scripter agent.
`substituted` is the argument passed to
`config['agents']['scripter']['instructions'].format(...)`, when the
pipeline reaches that call. -/
structure UIRun where
  value : Except String (String × String × Option String)
  validationCalls : ℕ
  genCalls : ℕ
  substituted : Option String

/-- Body of the generation `for attempt in range(max_retries)` loop in
`app/app.py` (lines 69–144): run the scripter, read the two output files
and the comic panel; on `RateLimitError` return an advisory message
before the last attempt and a terminal message on the last; on any other
exception return a wrapped error message.  Every branch of the Python
loop body returns, so the loop never runs a second iteration. -/
def appGenBody (env : Env) (attempt : ℕ) : String × String × Option String :=
  match env.outcomes attempt with
  | .ok _ => (readOriginalField env.dir, readHebrewField env.dir, env.comic)
  | .rateLimit msg =>
    if attempt < maxRetriesWeb - 1 then
      ("⚠️ Rate limit exceeded. Retrying in " ++
        formatF0 (computeDelayWeb attempt msg) ++ " seconds...", "", none)
    else
      ("❌ Rate limit error after 3 attempts. Try again in a few minutes.",
        "", none)
  | .exc m => ("❌ Error: " ++ m, "", none)

/-- Model of `run_parliament_session_ui` in `app/app.py`: validate the
topic with the guardrail agent; on `success == False` raise
`GuardrailsValidationError(", ".join(warnings))` without ever invoking
the generation stage; otherwise substitute `topic + validation_result`
into the scripter template and run the generation loop (which returns on
its first iteration, `attempt = 0`). -/
def run_parliament_session_ui (topic : String) (env : Env) : UIRun :=
  let resp := validate_user_input env.validation
  if resp.success = false then
    { value := .error (String.intercalate ", " resp.warnings)
      validationCalls := 1, genCalls := 0, substituted := none }
  else
    let arg := topic ++ resp.sanitized_input
    { value := .ok (appGenBody env 0)
      validationCalls := 1, genCalls := 1, substituted := some arg }

/-- Python's `str.strip()`: drop leading and trailing whitespace. -/
def pyStrip (s : String) : String :=
  String.mk
    (((s.toList.dropWhile Char.isWhitespace).reverse.dropWhile
      Char.isWhitespace).reverse)

/-- Result of `process_topic` in `app/app.py`: the displayed 4-tuple
`(original, hebrew, comic, error)` plus the call counters of the session
it ran (0 when it short-circuited). -/
structure AppUI where
  out : String × String × Option String × String
  validationCalls : ℕ
  genCalls : ℕ
deriving DecidableEq, Repr

/-- Model of `process_topic` in `app/app.py`: blank topics short-circuit
to the placeholder before anything runs; otherwise the session runs on
the stripped topic, a `GuardrailsValidationError` is rendered as the
content-policy banner in the error field, and a normal return fills the
three artifact fields with an empty error field.  (The generic
`except Exception` arm is unreachable: `run_parliament_session_ui`
raises nothing else.) -/
def process_topic (topic : String) (env : Env) : AppUI :=
  if topic = "" ∨ pyStrip topic = "" then
    { out := ("", "", none, "⚠️ Please enter a topic")
      validationCalls := 0, genCalls := 0 }
  else
    let r := run_parliament_session_ui (pyStrip topic) env
    match r.value with
    | .ok (o, h, c) =>
      { out := (o, h, c, ""), validationCalls := r.validationCalls
        genCalls := r.genCalls }
    | .error m =>
      { out := ("", "", none, "🛡️ Input Validation Failed\n\n" ++ m)
        validationCalls := r.validationCalls, genCalls := r.genCalls }

/-! The legacy web pipeline (`app.py`), which has no guardrail step and
a two-field response. -/

/-- External environment of `run_parliament_session_ui` in `app.py`. -/
structure LegacyEnv where
  outcomes : ℕ → Outcome
  dir : Dir

/-- Result of `run_parliament_session_ui` in `app.py` plus its
`Runner.run` invocation count. -/
structure LegacyRun where
  out : String × String
  genCalls : ℕ
deriving DecidableEq, Repr

/-- Body of the `for attempt in range(max_retries)` loop of
`run_parliament_session_ui` in `app.py` (lines 30–73); as in the
guardrails variant, every branch returns. -/
def legacyGenBody (env : LegacyEnv) (attempt : ℕ) : String × String :=
  match env.outcomes attempt with
  | .ok _ => (readOriginalField env.dir, readHebrewField env.dir)
  | .rateLimit msg =>
    if attempt < maxRetriesWeb - 1 then
      ("⚠️ Rate limit exceeded. The system will retry automatically in " ++
        formatF0 (computeDelayWeb attempt msg) ++ " seconds. Please wait...", "")
    else
      ("❌ Rate limit error after 3 attempts. Gemini API quota exceeded. " ++
        "Please try again in a few minutes.", "")
  | .exc m => ("❌ Error: " ++ m, "")

/-- Model of `run_parliament_session_ui` in `app.py`: no validation
step; the generation loop returns on its first iteration. -/
def run_parliament_session_ui_legacy (env : LegacyEnv) : LegacyRun :=
  { out := legacyGenBody env 0, genCalls := 1 }

/-- Model of `process_topic` in `app.py`: blank topics short-circuit to
the placeholder in the first (original-script) output slot; otherwise
the session result is passed through. -/
def process_topic_legacy (topic : String) (env : LegacyEnv) : LegacyRun :=
  if topic = "" ∨ pyStrip topic = "" then
    { out := ("⚠️ Please enter a topic", ""), genCalls := 0 }
  else
    run_parliament_session_ui_legacy env

/-! The CLI coordinators, which really loop: on a rate limit before the
last attempt they sleep and re-invoke the operation. -/

/-- Observable behaviour of one CLI coordinator call: its result (or the
exception it raises), how many times it executed the wrapped operation,
and the sequence of `asyncio.sleep` delays it performed. -/
structure CliRun (α : Type) where
  result : Except PyExc α
  calls : ℕ
  sleeps : List ℚ

/-- The retry loop of `run_parliament_session` in
`app/parliament_agent_open_ai_sdk.py` (lines 307–349), with `attempt`
the current index and `fuel` the remaining iterations of
`for attempt in range(3)`.  Success returns the final output (the
comic-panel call is an external effect not modelled); a rate limit
before the last attempt sleeps the computed delay and retries; on the
last attempt it returns a terminal message without raising; any other
exception is re-raised.  The fuel-0 case is the line after the loop,
unreachable from `attempt = 0`, `fuel = 3`. -/
def sdkCliLoop (outcomes : ℕ → Outcome) : ℕ → ℕ → CliRun String
  | _, 0 => { result := .ok "Unexpected error occurred", calls := 0, sleeps := [] }
  | attempt, fuel + 1 =>
    match outcomes attempt with
    | .ok out =>
      { result := .ok ("Final Script Output:\n" ++ out), calls := 1, sleeps := [] }
    | .rateLimit msg =>
      if attempt < maxRetriesSdkCli - 1 then
        let d := computeDelaySdkCli attempt msg
        let rest := sdkCliLoop outcomes (attempt + 1) fuel
        { result := rest.result, calls := rest.calls + 1, sleeps := d :: rest.sleeps }
      else
        { result := .ok "Rate limit exceeded. Please try again later."
          calls := 1, sleeps := [] }
    | .exc m =>
      { result := .error (.otherExc m), calls := 1, sleeps := [] }

/-- Model of `run_parliament_session` in
`app/parliament_agent_open_ai_sdk.py`. -/
def run_parliament_session_sdk (outcomes : ℕ → Outcome) : CliRun String :=
  sdkCliLoop outcomes 0 maxRetriesSdkCli

/-- The retry loop of `run_parliament_session` in `parlament_agent.py`
(lines 145–166): five attempts, backoff `2 * 2 ** attempt` with no
message parsing; after the last rate-limited attempt the
`RateLimitError` is re-raised (`raise`), and any other exception is also
re-raised.  On success the Python function returns the pair
`("Final Script Output:\n", result.final_output)`.  The fuel-0 case is
the implicit `None` after the loop, unreachable from `fuel = 5`. -/
def legacyCliLoop (outcomes : ℕ → Outcome) :
    ℕ → ℕ → CliRun (Option (String × String))
  | _, 0 => { result := .ok none, calls := 0, sleeps := [] }
  | attempt, fuel + 1 =>
    match outcomes attempt with
    | .ok out =>
      { result := .ok (some ("Final Script Output:\n", out))
        calls := 1, sleeps := [] }
    | .rateLimit msg =>
      if attempt < maxRetriesLegacyCli - 1 then
        let d := computeDelayLegacyCli attempt
        let rest := legacyCliLoop outcomes (attempt + 1) fuel
        { result := rest.result, calls := rest.calls + 1, sleeps := d :: rest.sleeps }
      else
        { result := .error (.rateLimitError msg), calls := 1, sleeps := [] }
    | .exc m =>
      { result := .error (.otherExc m), calls := 1, sleeps := [] }

/-- Model of `run_parliament_session` in `parlament_agent.py`. -/
def run_parliament_session_legacy_cli (outcomes : ℕ → Outcome) :
    CliRun (Option (String × String)) :=
  legacyCliLoop outcomes 0 maxRetriesLegacyCli

/-! Claim theorems. -/

/-- C6: for every input, if the external guardrail run raises an
unexpected exception, `validate_user_input` catches it and returns a
validation failure (`success = false`) whose warnings list contains the
exception text; it never propagates the exception (the model function is
total, returning a `GuardrailsResponse` in every case). -/
theorem validate_user_input_catches_exceptions (m : String) :
    (validate_user_input (.unexpected m)).success = false ∧
    ∃ w ∈ (validate_user_input (.unexpected m)).warnings,
      ∃ pre post : String, w = pre ++ m ++ post := by
  refine ⟨rfl, "Validation error: " ++ m, ?_, "Validation error: ", "", ?_⟩
  · simp [validate_user_input]
  · simp

/-- C7: writing the original script twice with different texts leaves
`original_script.txt` holding exactly the second text, and no other
`.txt` file in the output directory survives the second call. -/
theorem original_script_idempotent_cleanup (t1 t2 : String) (d : Dir)
    (h : t1 ≠ t2) :
    readFile "original_script.txt" (original_script t2 (original_script t1 d)) =
      some t2 ∧
    ∀ n : String, n ≠ "original_script.txt" → endsWithTxt n = true →
      readFile n (original_script t2 (original_script t1 d)) = none := by
  constructor
  · simp [original_script, writeFile, removeTxtFiles, readFile]
  · intro n h1 h2
    simp [original_script, writeFile, removeTxtFiles, readFile, h1, h2]

/-- Witness for C7 at concrete texts and directory. -/
theorem original_script_idempotent_cleanup_witness :
    ("first" : String) ≠ "second" ∧
    readFile "original_script.txt"
      (original_script "second" (original_script "first" emptyDir)) = some "second" ∧
    readFile "hebrew_output.txt"
      (original_script "second" (original_script "first" emptyDir)) = none :=
  ⟨by decide,
   (original_script_idempotent_cleanup "first" "second" emptyDir (by decide)).1,
   (original_script_idempotent_cleanup "first" "second" emptyDir (by decide)).2
     "hebrew_output.txt" (by decide) (by decide)⟩

/-- C10: the original-script writer deletes every `.txt` file, including
a previously written `hebrew_output.txt`; hence writing Hebrew first and
the original second leaves no Hebrew file, the reverse order preserves
both artifacts, and the two file-writing tools do not commute. -/
theorem write_order_preserves_artifacts (t1 t2 : String) (d : Dir) :
    readFile "hebrew_output.txt"
      (original_script t1 (write_hebrew_to_file t2 d)) = none ∧
    readFile "original_script.txt"
      (write_hebrew_to_file t2 (original_script t1 d)) = some t1 ∧
    readFile "hebrew_output.txt"
      (write_hebrew_to_file t2 (original_script t1 d)) = some t2 ∧
    write_hebrew_to_file t2 (original_script t1 d) ≠
      original_script t1 (write_hebrew_to_file t2 d) := by
  refine ⟨?_, ?_, ?_, ?_⟩
  · simp [original_script, write_hebrew_to_file, writeFile, removeTxtFiles, readFile]
    decide
  · simp [original_script, write_hebrew_to_file, writeFile, removeTxtFiles, readFile]
  · simp [original_script, write_hebrew_to_file, writeFile, removeTxtFiles, readFile]
  · intro h
    have h2 := congrFun h "hebrew_output.txt"
    simp [original_script, write_hebrew_to_file, writeFile, removeTxtFiles] at h2
    exact absurd h2 (by decide)

/-- C8: when the Hebrew output file is absent at read time, the Hebrew
field of the UI response is exactly "Hebrew translation file not found."
in both web variants, and the English field is unaffected by the Hebrew
file's absence: it depends only on the `original_script.txt` entry. -/
theorem hebrew_missing_placeholder (topic : String) (env : Env) (s : String)
    (hval : (validate_user_input env.validation).success = true)
    (hok : env.outcomes 0 = .ok s)
    (habs : readFile "hebrew_output.txt" env.dir = none) :
    (run_parliament_session_ui topic env).value =
      .ok (readOriginalField env.dir, "Hebrew translation file not found.",
        env.comic) ∧
    (run_parliament_session_ui_legacy
        { outcomes := env.outcomes, dir := env.dir }).out =
      (readOriginalField env.dir, "Hebrew translation file not found.") ∧
    ∀ d' : Dir,
      readFile "original_script.txt" d' = readFile "original_script.txt" env.dir →
      readOriginalField d' = readOriginalField env.dir := by
  refine ⟨?_, ?_, ?_⟩
  · simp [run_parliament_session_ui, hval, appGenBody, hok, readHebrewField, habs]
  · simp [run_parliament_session_ui_legacy, legacyGenBody, hok,
      readHebrewField, habs]
  · intro d' hd
    simp [readOriginalField, hd]

/-- Witness for C8: a directory holding only the original script. -/
theorem hebrew_missing_placeholder_witness :
    ((validate_user_input (.runOk "climate change")).success = true ∧
      ((fun _ => Outcome.ok "done") : ℕ → Outcome) 0 = .ok "done" ∧
      readFile "hebrew_output.txt" (original_script "text" emptyDir) = none) ∧
    (run_parliament_session_ui "climate change"
        { validation := .runOk "climate change"
          outcomes := fun _ => .ok "done"
          dir := original_script "text" emptyDir
          comic := none }).value =
      .ok (readOriginalField (original_script "text" emptyDir),
        "Hebrew translation file not found.", none) := by
  have happ := hebrew_missing_placeholder "climate change"
    { validation := .runOk "climate change"
      outcomes := fun _ => .ok "done"
      dir := original_script "text" emptyDir
      comic := none } "done" rfl rfl
    (by simp [original_script, writeFile, removeTxtFiles, readFile]; decide)
  exact ⟨⟨rfl, rfl,
    by simp [original_script, writeFile, removeTxtFiles, readFile]; decide⟩,
    happ.1⟩

/-- C1: whenever the guardrail validator reports `success = false`, the
pipeline raises `GuardrailsValidationError` with the joined warnings,
never invokes the generation stage (`genCalls = 0`), and the UI renders
the distinguished content-policy banner rather than the generic
"❌ Error:" form. -/
theorem guardrail_failure_blocks_generation (topic : String) (env : Env)
    (hfail : (validate_user_input env.validation).success = false) :
    (run_parliament_session_ui topic env).genCalls = 0 ∧
    (run_parliament_session_ui topic env).value =
      .error (String.intercalate ", "
        (validate_user_input env.validation).warnings) ∧
    (pyStrip topic ≠ "" →
      (process_topic topic env).out =
        ("", "", none, "🛡️ Input Validation Failed\n\n" ++
          String.intercalate ", "
            (validate_user_input env.validation).warnings) ∧
      (process_topic topic env).genCalls = 0) := by
  refine ⟨?_, ?_, ?_⟩
  · simp [run_parliament_session_ui, hfail]
  · simp [run_parliament_session_ui, hfail]
  · intro htrim
    have hcond : ¬(topic = "" ∨ pyStrip topic = "") := by
      rintro (rfl | h)
      · exact htrim rfl
      · exact htrim h
    constructor
    · simp [process_topic, hcond, run_parliament_session_ui, hfail]
    · simp [process_topic, hcond, run_parliament_session_ui, hfail]

/-- Witness for C1: a tripwired validation on a non-blank topic. -/
theorem guardrail_failure_blocks_generation_witness :
    (validate_user_input (.tripwire "Moderation")).success = false ∧
    pyStrip "climate change" ≠ "" ∧
    (run_parliament_session_ui "climate change"
        { validation := .tripwire "Moderation"
          outcomes := fun _ => .ok "x", dir := emptyDir, comic := none }).genCalls
      = 0 ∧
    (process_topic "climate change"
        { validation := .tripwire "Moderation"
          outcomes := fun _ => .ok "x", dir := emptyDir, comic := none }).out =
      ("", "", none,
        "🛡️ Input Validation Failed\n\nGuardrail triggered: Moderation") := by
  have happ := guardrail_failure_blocks_generation "climate change"
    { validation := .tripwire "Moderation"
      outcomes := fun _ => .ok "x", dir := emptyDir, comic := none } rfl
  exact ⟨rfl, by decide, happ.1, (happ.2.2 (by decide)).1⟩

/-- C3 counterexample: with raw topic `"a"` and sanitized input `"b"`,
the string substituted into the scripter template is `"ab"` (the raw
topic concatenated with the sanitized string), not the sanitized string
`"b"` alone. -/
theorem sanitized_substitution_counterexample :
    (validate_user_input (.runOk "b")).sanitized_input = "b" ∧
    (run_parliament_session_ui "a"
        { validation := .runOk "b", outcomes := fun _ => .ok "s"
          dir := emptyDir, comic := none }).substituted = some "ab" ∧
    (some "ab" : Option String) ≠ some "b" :=
  ⟨rfl, rfl, by decide⟩

/-- C3 amended: when validation succeeds, the string substituted into
the scripter's prompt template is the raw topic concatenated with the
sanitized string returned by the guardrail (`topic + sanitized_input`),
not the sanitized string alone. -/
theorem substituted_is_topic_plus_sanitized (topic : String) (env : Env)
    (hsucc : (validate_user_input env.validation).success = true) :
    (run_parliament_session_ui topic env).substituted =
      some (topic ++ (validate_user_input env.validation).sanitized_input) := by
  simp [run_parliament_session_ui, hsucc]

/-- Witness for the amended C3. -/
theorem substituted_is_topic_plus_sanitized_witness :
    (validate_user_input (.runOk "b")).success = true ∧
    (run_parliament_session_ui "a"
        { validation := .runOk "b", outcomes := fun _ => .ok "s"
          dir := emptyDir, comic := none }).substituted = some ("a" ++ "b") :=
  ⟨rfl,
   substituted_is_topic_plus_sanitized "a"
     { validation := .runOk "b", outcomes := fun _ => .ok "s"
       dir := emptyDir, comic := none } rfl⟩

/-- C9 counterexample: on a blank topic the legacy UI (`app.py`) does
not answer with empty script fields: its first (original-script) slot
holds the placeholder itself. -/
theorem blank_topic_counterexample :
    (process_topic_legacy ""
        { outcomes := fun _ => .ok "x", dir := emptyDir }).out =
      ("⚠️ Please enter a topic", "") ∧
    ("⚠️ Please enter a topic" : String) ≠ "" :=
  ⟨rfl, by decide⟩

/-- C9 amended: every blank or whitespace-only topic short-circuits both
web variants before any validation or generation call; the guardrails UI
(`app/app.py`) returns empty script fields with the placeholder in the
error slot, while the legacy UI (`app.py`) returns the placeholder in
the original-script slot and an empty Hebrew slot. -/
theorem blank_topic_short_circuits (topic : String) (env : Env)
    (lenv : LegacyEnv) (hblank : pyStrip topic = "") :
    process_topic topic env =
      { out := ("", "", none, "⚠️ Please enter a topic")
        validationCalls := 0, genCalls := 0 } ∧
    process_topic_legacy topic lenv =
      { out := ("⚠️ Please enter a topic", ""), genCalls := 0 } := by
  constructor <;> simp [process_topic, process_topic_legacy, hblank]

/-- Witness for the amended C9 at a whitespace topic. -/
theorem blank_topic_short_circuits_witness :
    pyStrip "   " = "" ∧
    process_topic "   "
        { validation := .runOk "x", outcomes := fun _ => .ok "x"
          dir := emptyDir, comic := none } =
      { out := ("", "", none, "⚠️ Please enter a topic")
        validationCalls := 0, genCalls := 0 } ∧
    process_topic_legacy "   " { outcomes := fun _ => .ok "x", dir := emptyDir } =
      { out := ("⚠️ Please enter a topic", ""), genCalls := 0 } := by
  have h := blank_topic_short_circuits "   "
    { validation := .runOk "x", outcomes := fun _ => .ok "x"
      dir := emptyDir, comic := none }
    { outcomes := fun _ => .ok "x", dir := emptyDir } (by decide)
  exact ⟨by decide, h.1, h.2⟩

/-- Helper: the SDK CLI loop executes the operation at most `fuel` times. -/
lemma sdkCliLoop_calls_le (o : ℕ → Outcome) (f a : ℕ) :
    (sdkCliLoop o a f).calls ≤ f := by
  induction f generalizing a with
  | zero => simp [sdkCliLoop]
  | succ f ih =>
    simp only [sdkCliLoop]
    cases o a with
    | ok s => simp
    | rateLimit m =>
      by_cases hlt : a < maxRetriesSdkCli - 1
      · simpa [hlt] using Nat.succ_le_succ (ih (a + 1))
      · simp [hlt]
    | exc m => simp

/-- Helper: the legacy CLI loop executes the operation at most `fuel`
times. -/
lemma legacyCliLoop_calls_le (o : ℕ → Outcome) (f a : ℕ) :
    (legacyCliLoop o a f).calls ≤ f := by
  induction f generalizing a with
  | zero => simp [legacyCliLoop]
  | succ f ih =>
    simp only [legacyCliLoop]
    cases o a with
    | ok s => simp
    | rateLimit m =>
      by_cases hlt : a < maxRetriesLegacyCli - 1
      · simpa [hlt] using Nat.succ_le_succ (ih (a + 1))
      · simp [hlt]
    | exc m => simp

/-- C4 counterexample: the legacy CLI coordinator, fed rate-limit
failures throughout, executes the wrapped operation 5 times — its
`max_retries` is 5, not 3. -/
theorem retry_attempt_bounds_counterexample :
    (run_parliament_session_legacy_cli
      (fun _ => .rateLimit "rate limited")).calls = 5 ∧
    ¬ (run_parliament_session_legacy_cli
      (fun _ => .rateLimit "rate limited")).calls ≤ 3 := by
  constructor
  · rfl
  · decide

/-- C4 amended: the web coordinators execute the wrapped operation at
most once per request, the SDK CLI coordinator at most
`max_retries = 3` times, and the legacy CLI coordinator at most its own
`max_retries = 5` times. -/
theorem retry_attempt_bounds (outcomes : ℕ → Outcome) (topic : String)
    (env : Env) (lenv : LegacyEnv) :
    (run_parliament_session_sdk outcomes).calls ≤ maxRetriesSdkCli ∧
    (run_parliament_session_legacy_cli outcomes).calls ≤ maxRetriesLegacyCli ∧
    maxRetriesSdkCli = 3 ∧ maxRetriesLegacyCli = 5 ∧
    (run_parliament_session_ui topic env).genCalls ≤ 1 ∧
    (run_parliament_session_ui_legacy lenv).genCalls = 1 := by
  refine ⟨sdkCliLoop_calls_le outcomes maxRetriesSdkCli 0,
    legacyCliLoop_calls_le outcomes maxRetriesLegacyCli 0, rfl, rfl, ?_, rfl⟩
  simp only [run_parliament_session_ui]
  split <;> simp

/-- C5 counterexample: the legacy CLI coordinator re-raises the
`RateLimitError` after its final attempt instead of returning a
terminal message, and the SDK CLI coordinator re-raises a
non-rate-limit exception instead of wrapping it into a failure
message. -/
theorem retry_failure_reporting_counterexample :
    (run_parliament_session_legacy_cli
        (fun _ => .rateLimit "rate limited")).result =
      .error (.rateLimitError "rate limited") ∧
    (run_parliament_session_sdk (fun _ => .exc "boom")).result =
      .error (.otherExc "boom") :=
  ⟨rfl, rfl⟩

/-- C5 amended: on rate-limit exhaustion the SDK CLI coordinator
returns a terminal failure message without raising, while the legacy
CLI coordinator re-raises the last `RateLimitError`; a non-rate-limit
exception is never retried in any variant, but only the web
coordinators wrap it into a failure message — both CLI coordinators
re-raise it after a single execution. -/
theorem retry_failure_reporting (outcomes : ℕ → Outcome)
    (msgs : ℕ → String) (topic : String) (env : Env) (lenv : LegacyEnv) :
    ((∀ i, outcomes i = .rateLimit (msgs i)) →
      (run_parliament_session_sdk outcomes).result =
        .ok "Rate limit exceeded. Please try again later." ∧
      (run_parliament_session_legacy_cli outcomes).result =
        .error (.rateLimitError (msgs 4))) ∧
    (∀ m, outcomes 0 = .exc m →
      (run_parliament_session_sdk outcomes).result = .error (.otherExc m) ∧
      (run_parliament_session_sdk outcomes).calls = 1 ∧
      (run_parliament_session_legacy_cli outcomes).result =
        .error (.otherExc m) ∧
      (run_parliament_session_legacy_cli outcomes).calls = 1) ∧
    (∀ m, env.outcomes 0 = .exc m →
      (validate_user_input env.validation).success = true →
      (run_parliament_session_ui topic env).value =
        .ok ("❌ Error: " ++ m, "", none) ∧
      (run_parliament_session_ui topic env).genCalls = 1) ∧
    (∀ m, lenv.outcomes 0 = .exc m →
      (run_parliament_session_ui_legacy lenv).out = ("❌ Error: " ++ m, "")) := by
  refine ⟨?_, ?_, ?_, ?_⟩
  · intro h
    constructor
    · simp [run_parliament_session_sdk, sdkCliLoop, maxRetriesSdkCli, h]
    · simp [run_parliament_session_legacy_cli, legacyCliLoop,
        maxRetriesLegacyCli, h]
  · intro m hm
    refine ⟨?_, ?_, ?_, ?_⟩ <;>
      simp [run_parliament_session_sdk, sdkCliLoop, maxRetriesSdkCli,
        run_parliament_session_legacy_cli, legacyCliLoop,
        maxRetriesLegacyCli, hm]
  · intro m hm hsucc
    constructor <;>
      simp [run_parliament_session_ui, hsucc, appGenBody, hm]
  · intro m hm
    simp [run_parliament_session_ui_legacy, legacyGenBody, hm]

/-- Witness for the amended C5 at concrete outcome sequences. -/
theorem retry_failure_reporting_witness :
    ((run_parliament_session_sdk (fun _ => .rateLimit "r")).result =
      .ok "Rate limit exceeded. Please try again later." ∧
    (run_parliament_session_legacy_cli (fun _ => .rateLimit "r")).result =
      .error (.rateLimitError "r")) ∧
    ((run_parliament_session_sdk (fun _ => .exc "boom")).result =
      .error (.otherExc "boom") ∧
    (run_parliament_session_ui_legacy
        { outcomes := fun _ => .exc "boom", dir := emptyDir }).out =
      ("❌ Error: " ++ "boom", "")) :=
  ⟨(retry_failure_reporting (fun _ => .rateLimit "r") (fun _ => "r") "t"
      { validation := .runOk "x", outcomes := fun _ => .ok "x"
        dir := emptyDir, comic := none }
      { outcomes := fun _ => .exc "boom", dir := emptyDir }).1
      (fun _ => rfl),
   ((retry_failure_reporting (fun _ => .exc "boom") (fun _ => "r") "t"
      { validation := .runOk "x", outcomes := fun _ => .ok "x"
        dir := emptyDir, comic := none }
      { outcomes := fun _ => .exc "boom", dir := emptyDir }).2.1
      "boom" rfl).1,
   ((retry_failure_reporting (fun _ => .exc "boom") (fun _ => "r") "t"
      { validation := .runOk "x", outcomes := fun _ => .ok "x"
        dir := emptyDir, comic := none }
      { outcomes := fun _ => .exc "boom", dir := emptyDir }).2.2.2
      "boom" rfl)⟩

/-- C2 counterexample: the claimed delay formula fails at two entry
points.  The legacy CLI coordinator ignores a present
"retry in 12.5s" suggestion and sleeps 2 seconds on attempt 0 (not
17.5), and the SDK CLI coordinator's fallback backoff starts at 35
seconds on attempt 0 (not 30). -/
theorem computed_delay_policy_counterexample :
    findRetryDelay "Please retry in 12.5s" = some (25 / 2) ∧
    (run_parliament_session_legacy_cli
        (fun _ => .rateLimit "Please retry in 12.5s")).sleeps =
      [2, 4, 8, 16] ∧
    (2 : ℚ) ≠ 25 / 2 + 5 ∧
    (run_parliament_session_sdk
        (fun _ => .rateLimit "quota exceeded")).sleeps = [35, 70] ∧
    (35 : ℚ) ≠ 30 * 2 ^ 0 := by
  have hp : findRetry "Please retry in 12.5s".toList = some (12, 5, 1) := by
    decide
  have hq : findRetryDelay "quota exceeded" = none := by
    have h0 : findRetry "quota exceeded".toList = none := by decide
    rw [findRetryDelay, h0]
    rfl
  refine ⟨?_, ?_, ?_, ?_, ?_⟩
  · rw [findRetryDelay, hp]
    simp [secsVal]
    norm_num
  · simp [run_parliament_session_legacy_cli, legacyCliLoop,
      maxRetriesLegacyCli, computeDelayLegacyCli]
    norm_num
  · norm_num
  · simp [run_parliament_session_sdk, sdkCliLoop, maxRetriesSdkCli,
      computeDelaySdkCli, hq]
    norm_num
  · norm_num

/-- C2 amended: when the upstream message embeds a parseable
"retry in Ns" suggestion, both web coordinators and the SDK CLI
coordinator compute `suggested + 5`; without one, the web fallback is
`30 * 2 ^ attempt` but the SDK CLI fallback is `35 * 2 ^ attempt`; the
legacy CLI coordinator never parses the message and always uses
`2 * 2 ^ attempt` across its 5 attempts.  These delays are the sleeps
the CLI coordinators perform and the advisory interval the web UI
reports. -/
theorem computed_delay_policy (i : ℕ) (msg : String) (q : ℚ)
    (outcomes : ℕ → Outcome) (msgs : ℕ → String) (topic : String)
    (env : Env) :
    (findRetryDelay msg = some q →
      computeDelayWeb i msg = q + 5 ∧ computeDelaySdkCli i msg = q + 5) ∧
    (findRetryDelay msg = none →
      computeDelayWeb i msg = 30 * 2 ^ i ∧
      computeDelaySdkCli i msg = 35 * 2 ^ i) ∧
    computeDelayLegacyCli i = 2 * 2 ^ i ∧
    computeDelayWeb 0 "retry in 12.5s" = 35 / 2 ∧
    ((∀ j, outcomes j = .rateLimit (msgs j)) →
      (run_parliament_session_sdk outcomes).sleeps =
        [computeDelaySdkCli 0 (msgs 0), computeDelaySdkCli 1 (msgs 1)] ∧
      (run_parliament_session_legacy_cli outcomes).sleeps =
        [computeDelayLegacyCli 0, computeDelayLegacyCli 1,
          computeDelayLegacyCli 2, computeDelayLegacyCli 3]) ∧
    (env.outcomes 0 = .rateLimit msg →
      (validate_user_input env.validation).success = true →
      (run_parliament_session_ui topic env).value =
        .ok ("⚠️ Rate limit exceeded. Retrying in " ++
          formatF0 (computeDelayWeb 0 msg) ++ " seconds...", "", none)) := by
  refine ⟨?_, ?_, rfl, ?_, ?_, ?_⟩
  · intro h
    constructor <;> simp [computeDelayWeb, computeDelaySdkCli, h]
  · intro h
    constructor <;> simp [computeDelayWeb, computeDelaySdkCli, h]
  · have hp : findRetry "retry in 12.5s".toList = some (12, 5, 1) := by decide
    rw [computeDelayWeb, findRetryDelay, hp]
    simp [secsVal]
    norm_num
  · intro h
    constructor
    · simp [run_parliament_session_sdk, sdkCliLoop, maxRetriesSdkCli, h]
    · simp [run_parliament_session_legacy_cli, legacyCliLoop,
        maxRetriesLegacyCli, h]
  · intro hrl hsucc
    simp [run_parliament_session_ui, hsucc, appGenBody, hrl, maxRetriesWeb]

/-- Witness for the amended C2 at a message carrying "retry in 7s". -/
theorem computed_delay_policy_witness :
    findRetryDelay "retry in 7s" = some 7 ∧
    computeDelayWeb 2 "retry in 7s" = 7 + 5 ∧
    computeDelaySdkCli 2 "retry in 7s" = 7 + 5 ∧
    findRetryDelay "no hint here" = none ∧
    computeDelayWeb 1 "no hint here" = 30 * 2 ^ 1 ∧
    computeDelaySdkCli 1 "no hint here" = 35 * 2 ^ 1 := by
  have h7 : findRetryDelay "retry in 7s" = some 7 := by
    have hp : findRetry "retry in 7s".toList = some (7, 0, 0) := by decide
    rw [findRetryDelay, hp]
    simp [secsVal]
  have hn : findRetryDelay "no hint here" = none := by
    have hp : findRetry "no hint here".toList = none := by decide
    rw [findRetryDelay, hp]
    rfl
  exact ⟨h7,
    ((computed_delay_policy 2 "retry in 7s" 7 (fun _ => .ok "") (fun _ => "")
      "t" { validation := .runOk "x", outcomes := fun _ => .ok "x"
            dir := emptyDir, comic := none }).1 h7).1,
    ((computed_delay_policy 2 "retry in 7s" 7 (fun _ => .ok "") (fun _ => "")
      "t" { validation := .runOk "x", outcomes := fun _ => .ok "x"
            dir := emptyDir, comic := none }).1 h7).2,
    hn,
    ((computed_delay_policy 1 "no hint here" 0 (fun _ => .ok "") (fun _ => "")
      "t" { validation := .runOk "x", outcomes := fun _ => .ok "x"
            dir := emptyDir, comic := none }).2.1 hn).1,
    ((computed_delay_policy 1 "no hint here" 0 (fun _ => .ok "") (fun _ => "")
      "t" { validation := .runOk "x", outcomes := fun _ => .ok "x"
            dir := emptyDir, comic := none }).2.1 hn).2⟩
